import Mathlib

/-!
Shallow embedding of the celery-redis-email-service repository
(src/tasks.py, src/main.py, src/celery_app.py) and verification of the
spec's claims about it.

Modelling conventions:
- Python strings are Lean `String`; character-level operations work on the
  underlying character list `String.data` (the library's `String.contains`
  and `String.splitOn` are opaque to the kernel, so the single-character
  substring test `"@" in s` is modelled as `pyContains` and `s.split("@")`
  as `pySplit`, with Python's semantics: the split result is non-empty and
  keeps empty pieces, and `[-1]` is `getLastD`).
- Wall-clock timestamps (`get_timestamp`), `time.sleep`, logging and the
  celery-minted task id are side effects irrelevant to every claim; they are
  omitted from the records.
- The worker procedures publish state updates via `update_state` /
  `update_progress`; each procedure is embedded as a pure function returning
  the ordered list of published updates together with its outcome
  (`Except` error message on a raised exception, result dict otherwise).
- Percentages: the source computes `int((current / total) * 100)` with IEEE
  doubles. The model uses the exact rational quotient truncated toward zero,
  i.e. Nat division `current * 100 / total`; representation error of the
  double can shift the source's value by one at isolated inputs, which no
  claim's counterexample below depends on (each concrete counterexample is
  evaluated at a point where the double and the exact quotient agree).
-/

namespace EmailService

/-- Python's `c in s` for a single-character needle `c`: membership of the
character in the string. -/
def pyContains (s : String) (c : Char) : Bool :=
  s.data.contains c

/-- Python's `str.split(sep)` for a single-character separator, on the
character list: always returns at least one piece and keeps empty pieces,
exactly like Python (`"".split("@") == [""]`, `"a@@b".split("@") ==
["a", "", "b"]`). -/
def pySplit (sep : Char) : List Char → List (List Char)
  | [] => [[]]
  | c :: rest =>
    let r := pySplit sep rest
    if c = sep then [] :: r
    else (c :: r.headD []) :: r.tail

/-- tasks.py, `simulate_email_sending_fixed`: sleeps a random time, logs, and
`return True  # Always successful`. The sleep and logging are side effects
with no bearing on the return value. -/
def simulate_email_sending_fixed (recipient subject message : String) : Bool :=
  true

/-- One `meta` dict published by `EmailTask.update_progress`
(timestamp omitted). -/
structure ProgressMeta where
  current : Nat
  total : Nat
  progress : Nat
  status : String
deriving Repr, DecidableEq

/-- tasks.py, `EmailTask.update_progress`:
`progress = int((current / total) * 100) if total > 0 else 0`, published with
state "PROGRESS". -/
def update_progress (current total : Nat) (status_message : String) : ProgressMeta :=
  { current := current
    total := total
    progress := if total > 0 then current * 100 / total else 0
    status := status_message }

/-- One `update_state` publication of the single-email procedure:
celery state plus the `status` and `step` entries of its meta dict. -/
structure StateUpdate where
  state : String
  status : String
  step : String
deriving Repr, DecidableEq

/-- The result dict returned by `send_single_email` on success
(`sent_at` timestamp and `task_id` omitted). -/
structure SingleEmailResult where
  status : String
  recipient : String
  subject : String
  message : String
  delivery_status : String
deriving Repr, DecidableEq

/-- tasks.py, `send_single_email`: publishes step 1/5, raises
`ValueError("Invalid email address")` when `"@" not in recipient_email`,
otherwise publishes steps 2/5–4/5, calls the transport, raises on a falsy
transport result, publishes 5/5 and returns the result dict. Both `except`
arms re-`raise`, so a raised error is the task's terminal failure. Returns
(published updates in order, outcome). -/
def send_single_email (recipient_email subject message : String) :
    List StateUpdate × Except String SingleEmailResult :=
  let u1 : StateUpdate := ⟨"PROCESSING", "Validating email address", "1/5"⟩
  if pyContains recipient_email '@' = false then
    ([u1], Except.error "Invalid email address")
  else
    let u2 : StateUpdate := ⟨"PROCESSING", "Preparing email content", "2/5"⟩
    let u3 : StateUpdate := ⟨"CONNECTING", "Connecting to email server", "3/5"⟩
    let u4 : StateUpdate := ⟨"SENDING", "Sending email", "4/5"⟩
    if simulate_email_sending_fixed recipient_email subject message = false then
      ([u1, u2, u3, u4], Except.error "Unexpected email sending failure")
    else
      let u5 : StateUpdate := ⟨"FINALIZING", "Verifying delivery", "5/5"⟩
      ([u1, u2, u3, u4, u5],
        Except.ok ⟨"COMPLETED", recipient_email, subject,
          "Email sent successfully!", "confirmed"⟩)

/-- An entry of the bulk result's `sent_emails` list (timestamp omitted). -/
structure SentEntry where
  email : String
  status : String
deriving Repr, DecidableEq

/-- An entry of the bulk result's `failed_emails` list (timestamp omitted). -/
structure FailedEntry where
  email : String
  reason : String
deriving Repr, DecidableEq

/-- tasks.py, `send_bulk_emails` line 139, the per-recipient validation:
`if "@" not in email or "." not in email.split("@")[-1]` marks the email
invalid; this is the negation of that condition. -/
def bulk_email_valid (email : String) : Bool :=
  pyContains email '@' && ((pySplit '@' email.data).getLastD []).contains '.'

/-- The per-recipient loop body of `send_bulk_emails` over the whole list,
in input order: an invalid address is appended to `failed_emails` with reason
"Invalid email format" and the loop continues; a valid one goes through the
transport, landing in `sent_emails` on a truthy result and in
`failed_emails` with reason "Unexpected sending failure" on a falsy one.
(The `except` arm catching a raised error per recipient has no pure
counterpart: no operation in the loop body can raise.) -/
def bulk_loop (subject message : String) :
    List String → List SentEntry × List FailedEntry
  | [] => ([], [])
  | email :: rest =>
    let tail := bulk_loop subject message rest
    if bulk_email_valid email = false then
      (tail.1, ⟨email, "Invalid email format"⟩ :: tail.2)
    else if simulate_email_sending_fixed email subject message then
      (⟨email, "success"⟩ :: tail.1, tail.2)
    else
      (tail.1, ⟨email, "Unexpected sending failure"⟩ :: tail.2)

/-- Rounding to the nearest integer, ties to even — the rounding CPython's
fixed-point float formatting applies. -/
def roundHalfEven (q : ℚ) : ℤ :=
  let f := ⌊q⌋
  let r := q - f
  if r < 1 / 2 then f
  else if 1 / 2 < r then f + 1
  else if f % 2 = 0 then f else f + 1

/-- Model of the f-string `f"{success_rate:.1f}%"`: the rate rendered with
one decimal digit and a percent sign. (The source formats an IEEE double;
this renders the exact rational, which agrees on every value the claims
evaluate.) -/
def formatRate1 (q : ℚ) : String :=
  let t : ℤ := roundHalfEven (q * 10)
  toString (t / 10) ++ "." ++ toString (t % 10) ++ "%"

/-- The `summary` dict of the bulk result. `success_rate` is the formatted
string stored by the source; `success_rate_q` is the number it formats,
`(len(sent_emails) / total_emails) * 100 if total_emails > 0 else 0`. -/
structure BulkSummary where
  total_emails : Nat
  sent_count : Nat
  failed_count : Nat
  success_rate_q : ℚ
  success_rate : String
deriving Repr, DecidableEq

/-- The result dict returned by `send_bulk_emails`
(`completed_at` timestamp and `task_id` omitted). -/
structure BulkResult where
  status : String
  summary : BulkSummary
  sent_emails : List SentEntry
  failed_emails : List FailedEntry
  subject : String
deriving Repr, DecidableEq

/-- tasks.py, `send_bulk_emails`: publishes `(0, total)`, then one
`(i+1, total)` progress per recipient in input order, runs the loop,
computes the success rate (guarded when `total_emails` is 0) and returns the
aggregate result with status "COMPLETED". Returns
(published progress metas in order, result). -/
def send_bulk_emails (email_list : List String) (subject message : String) :
    List ProgressMeta × BulkResult :=
  let total_emails := email_list.length
  let p0 := update_progress 0 total_emails "Starting bulk email send"
  let loop_pubs := email_list.enum.map (fun p =>
    update_progress (p.1 + 1) total_emails
      ("Sending email " ++ toString (p.1 + 1) ++ "/" ++ toString total_emails
        ++ " to " ++ p.2))
  let pair := bulk_loop subject message email_list
  let sent_emails := pair.1
  let failed_emails := pair.2
  let success_rate : ℚ :=
    if total_emails > 0 then
      ((sent_emails.length : ℚ) / (total_emails : ℚ)) * 100
    else 0
  (p0 :: loop_pubs,
    { status := "COMPLETED"
      summary :=
        { total_emails := total_emails
          sent_count := sent_emails.length
          failed_count := failed_emails.length
          success_rate_q := success_rate
          success_rate := formatRate1 success_rate }
      sent_emails := sent_emails
      failed_emails := failed_emails
      subject := subject })

/-! ### main.py — admission control, dispatch and status projection -/

/-- The configuration read from the environment in main.py, with its
defaults: `MAX_QUEUE_LENGTH_SINGLE = 50`, `MAX_QUEUE_LENGTH_BULK = 30`,
`MAX_BULK_EMAILS = 100`. -/
structure AppConfig where
  max_queue_length_single : Nat
  max_queue_length_bulk : Nat
  max_bulk_emails : Nat
deriving Repr, DecidableEq

/-- The defaults of main.py lines 20–22. -/
def defaultConfig : AppConfig :=
  { max_queue_length_single := 50
    max_queue_length_bulk := 30
    max_bulk_emails := 100 }

/-- Outcome of a submission endpoint. `accepted` is the branch that calls
`.delay(...)` — the only branch that creates and enqueues a task — and
returns the minted task id with status "PENDING" (and, for bulk, the
recipient count). `queueFull` is the 503 JSON response carrying the current
queue length; `badRequest` is a raised `HTTPException` (no task created in
either). -/
inductive SubmitResponse where
  | accepted (task_id : String) (status : String) (recipient_count : Option Nat)
  | queueFull (status_code : Nat) (error : String) (queue_length : Nat)
  | badRequest (status_code : Nat) (detail : String)
deriving Repr, DecidableEq

/-- Whether a submission outcome is the 503 queue-full rejection. -/
def SubmitResponse.isQueueFull : SubmitResponse → Bool
  | .queueFull _ _ _ => true
  | _ => false

/-- Whether a submission outcome created (and enqueued) a task. -/
def SubmitResponse.createdTask : SubmitResponse → Bool
  | .accepted _ _ _ => true
  | _ => false

/-- main.py, `send_email_endpoint`: reads the queue length, returns 503 with
the current length when `current_queue_length >= MAX_QUEUE_LENGTH_SINGLE`,
otherwise dispatches `send_single_email` and answers with the task id and
status "PENDING". `queue_length` is the value `get_queue_length()` returned;
`task_id` the id celery mints in the `.delay` branch. -/
def send_email_endpoint (cfg : AppConfig) (queue_length : Nat)
    (task_id recipient_email subject message : String) : SubmitResponse :=
  if queue_length ≥ cfg.max_queue_length_single then
    .queueFull 503 "Email queue is full. Please try again later." queue_length
  else
    .accepted task_id "PENDING" none

/-- main.py, `send_bulk_emails_endpoint`: 400 on an empty list, 400 on a
list longer than `MAX_BULK_EMAILS`, then the queue check against
`MAX_QUEUE_LENGTH_BULK` (503 with the current length), then dispatch with
status "PENDING" and the recipient count. -/
def send_bulk_emails_endpoint (cfg : AppConfig) (queue_length : Nat)
    (task_id : String) (email_list : List String)
    (subject message : String) : SubmitResponse :=
  if email_list.length = 0 then
    .badRequest 400 "Email list cannot be empty"
  else if email_list.length > cfg.max_bulk_emails then
    .badRequest 400
      ("Cannot send more than " ++ toString cfg.max_bulk_emails
        ++ " emails at once")
  else if queue_length ≥ cfg.max_queue_length_bulk then
    .queueFull 503 "Email queue is full. Please try again later." queue_length
  else
    .accepted task_id "PENDING" (some email_list.length)

/-- A task record as the celery result backend presents it to
`AsyncResult`: the status string and the info/result slot (meta dict while
in flight, result dict on success, exception on failure — serialized here
as a string; `none` models a falsy result slot). -/
structure StoredRecord where
  status : String
  info : Option String
deriving Repr, DecidableEq

/-- celery's `AsyncResult.successful()`: the status is "SUCCESS". -/
def StoredRecord.successful (r : StoredRecord) : Bool :=
  r.status = "SUCCESS"

/-- celery's `AsyncResult.failed()`: the status is "FAILURE". -/
def StoredRecord.hasFailed (r : StoredRecord) : Bool :=
  r.status = "FAILURE"

/-- celery's `AsyncResult` lookup over the result backend: a task id with no
stored record (never existed, or its record expired) yields status
"PENDING" with an empty result slot, indistinguishable from a task that has
not started. -/
def asyncResult (store : String → Option StoredRecord)
    (task_id : String) : StoredRecord :=
  (store task_id).getD ⟨"PENDING", none⟩

/-- The JSON body `get_task_status` answers with (`TaskStatusResponse`
shape of main.py lines 58–63). -/
structure TaskStatusResponse where
  task_id : String
  status : String
  result : Option String
  error : Option String
  meta : Option String
deriving Repr, DecidableEq

/-- main.py, `get_task_status`: starts from `{task_id, status}`; when the
status is "PROGRESS" it attaches `meta`; else when `successful()` it
attaches `result` and rewrites the status to "COMPLETED"; else when
`failed()` it rewrites the status to "FAILED" and attaches
`str(result) if task_result.result else "Task failed"`; any other status is
answered as-is with no extra field. -/
def get_task_status (task_id : String) (task_result : StoredRecord) :
    TaskStatusResponse :=
  let base : TaskStatusResponse := ⟨task_id, task_result.status, none, none, none⟩
  if task_result.status = "PROGRESS" then
    { base with meta := task_result.info }
  else if task_result.successful then
    { base with result := task_result.info, status := "COMPLETED" }
  else if task_result.hasFailed then
    { base with
      status := "FAILED"
      error := some (match task_result.info with
        | some s => s
        | none => "Task failed") }
  else
    base

/-! ### Helper definitions and lemmas shared by the claims -/

/-- The result record of a bulk run (second component of
`send_bulk_emails`). -/
def bulkResult (email_list : List String) (subject message : String) : BulkResult :=
  (send_bulk_emails email_list subject message).2

/-- The ordered progress publications of a bulk run (first component of
`send_bulk_emails`). -/
def bulkPublishes (email_list : List String) (subject message : String) :
    List ProgressMeta :=
  (send_bulk_emails email_list subject message).1

/-- The outcome of a single-email run (second component of
`send_single_email`). -/
def singleOutcome (recipient subject message : String) :
    Except String SingleEmailResult :=
  (send_single_email recipient subject message).2

/-- The ordered state publications of a single-email run (first component
of `send_single_email`). -/
def singlePublishes (recipient subject message : String) : List StateUpdate :=
  (send_single_email recipient subject message).1

/-- The numeric step of a published "n/5" step string of the single-email
procedure. -/
def stepToNat (s : String) : Nat :=
  if s = "1/5" then 1
  else if s = "2/5" then 2
  else if s = "3/5" then 3
  else if s = "4/5" then 4
  else if s = "5/5" then 5
  else 0

/-- The numeric step sequence a single-email run publishes, in publication
order. -/
def singleSteps (recipient subject message : String) : List Nat :=
  (singlePublishes recipient subject message).map (fun u => stepToNat u.step)

/-- The `current` counter sequence a bulk run publishes, in publication
order. -/
def bulkCurrents (email_list : List String) (subject message : String) : List Nat :=
  (bulkPublishes email_list subject message).map ProgressMeta.current

lemma bulk_loop_eq (subject message : String) (l : List String) :
    bulk_loop subject message l
      = ((l.filter (fun e => bulk_email_valid e)).map
            (fun e => ({ email := e, status := "success" } : SentEntry)),
         (l.filter (fun e => !bulk_email_valid e)).map
            (fun e => ({ email := e, reason := "Invalid email format" } : FailedEntry))) := by
  induction l with
  | nil => simp [bulk_loop]
  | cons e rest ih =>
    by_cases h : bulk_email_valid e
    · simp [bulk_loop, simulate_email_sending_fixed, h, ih]
    · simp [bulk_loop, simulate_email_sending_fixed, h, ih]

lemma bulkResult_sent_emails (l : List String) (s m : String) :
    (bulkResult l s m).sent_emails
      = (l.filter (fun e => bulk_email_valid e)).map
          (fun e => ({ email := e, status := "success" } : SentEntry)) := by
  simp [bulkResult, send_bulk_emails, bulk_loop_eq]

lemma bulkResult_failed_emails (l : List String) (s m : String) :
    (bulkResult l s m).failed_emails
      = (l.filter (fun e => !bulk_email_valid e)).map
          (fun e => ({ email := e, reason := "Invalid email format" } : FailedEntry)) := by
  simp [bulkResult, send_bulk_emails, bulk_loop_eq]

lemma bulkResult_counts (l : List String) (s m : String) :
    (bulkResult l s m).summary.sent_count
        = (l.filter (fun e => bulk_email_valid e)).length
      ∧ (bulkResult l s m).summary.failed_count
        = (l.filter (fun e => !bulk_email_valid e)).length
      ∧ (bulkResult l s m).summary.total_emails = l.length := by
  refine ⟨?_, ?_, ?_⟩ <;> simp [bulkResult, send_bulk_emails, bulk_loop_eq]

lemma length_filter_add_not (p : String → Bool) (l : List String) :
    (l.filter p).length + (l.filter (fun e => !p e)).length = l.length :=
  (List.length_eq_length_filter_add p).symm

/-! ### Claim C1 -/

/-- Claim C1, counterexample: the claim requires that every address of the
input appears in exactly one of the two result lists "with no duplicates",
but the code deduplicates nothing — submitting the same address twice puts
two copies into `sent_emails`, so the combined result lists are not
duplicate-free. -/
theorem claim_c1_counterexample :
    ((bulkResult ["a@b.c", "a@b.c"] "s" "m").sent_emails.map SentEntry.email
        = ["a@b.c", "a@b.c"])
    ∧ ¬ ((bulkResult ["a@b.c", "a@b.c"] "s" "m").sent_emails.map SentEntry.email
          ++ (bulkResult ["a@b.c", "a@b.c"] "s" "m").failed_emails.map FailedEntry.email).Nodup := by
  refine ⟨by decide, ?_⟩
  decide

/-- Claim C1 (amended): at completion of a bulk run,
`sent_count + failed_count = len(email_list)`; `sent_emails` holds exactly
the input addresses passing the format check, in input order, and
`failed_emails` exactly the ones failing it, in input order, one entry per
input occurrence; consequently, when the input list has no duplicate
addresses, every input address appears in exactly one of the two result
lists and neither list has a duplicate. -/
theorem claim_c1_amended (email_list : List String) (subject message : String) :
    (bulkResult email_list subject message).summary.sent_count
        + (bulkResult email_list subject message).summary.failed_count
        = email_list.length
    ∧ (bulkResult email_list subject message).sent_emails.map SentEntry.email
        = email_list.filter (fun e => bulk_email_valid e)
    ∧ (bulkResult email_list subject message).failed_emails.map FailedEntry.email
        = email_list.filter (fun e => !bulk_email_valid e)
    ∧ (email_list.Nodup →
        ((bulkResult email_list subject message).sent_emails.map SentEntry.email
          ++ (bulkResult email_list subject message).failed_emails.map FailedEntry.email).Nodup
        ∧ ∀ e ∈ email_list,
            (e ∈ (bulkResult email_list subject message).sent_emails.map SentEntry.email
              ↔ ¬ e ∈ (bulkResult email_list subject message).failed_emails.map FailedEntry.email)) := by
  obtain ⟨hs, hf, _⟩ := bulkResult_counts email_list subject message
  have hse := bulkResult_sent_emails email_list subject message
  have hfe := bulkResult_failed_emails email_list subject message
  have hsent : (bulkResult email_list subject message).sent_emails.map SentEntry.email
      = email_list.filter (fun e => bulk_email_valid e) := by
    rw [hse]; simp [Function.comp_def]
  have hfail : (bulkResult email_list subject message).failed_emails.map FailedEntry.email
      = email_list.filter (fun e => !bulk_email_valid e) := by
    rw [hfe]; simp [Function.comp_def]
  refine ⟨?_, hsent, hfail, ?_⟩
  · rw [hs, hf]; exact length_filter_add_not _ email_list
  · intro hnd
    constructor
    · rw [hsent, hfail]
      refine List.Nodup.append (hnd.filter _) (hnd.filter _) ?_
      intro a ha hb
      have hav := List.of_mem_filter ha
      have hbv := List.of_mem_filter hb
      rw [hav] at hbv
      exact absurd hbv (by decide)
    · intro e he
      rw [hsent, hfail]
      by_cases hv : bulk_email_valid e <;> simp [List.mem_filter, he, hv]

/-- Claim C1, witness of the amended theorem at the spec's own scenario
input `["good@x.com", "bad-address"]`. -/
theorem claim_c1_witness :
    (bulkResult ["good@x.com", "bad-address"] "Hi" "Test").summary.sent_count
        + (bulkResult ["good@x.com", "bad-address"] "Hi" "Test").summary.failed_count = 2
    ∧ ((bulkResult ["good@x.com", "bad-address"] "Hi" "Test").sent_emails.map SentEntry.email
          ++ (bulkResult ["good@x.com", "bad-address"] "Hi" "Test").failed_emails.map FailedEntry.email).Nodup := by
  have h := claim_c1_amended ["good@x.com", "bad-address"] "Hi" "Test"
  exact ⟨h.1, (h.2.2.2 (by decide)).1⟩

/-! ### Claim C2 -/

/-- Claim C2: a single-email task whose recipient address does not contain
'@' fails step 1's validation, ends immediately in the failed state with
the message "Invalid email address", publishes no update beyond step 1/5
(steps 2–5 are never attempted) and produces no success result. -/
theorem claim_c2 (recipient_email subject message : String)
    (h : pyContains recipient_email '@' = false) :
    send_single_email recipient_email subject message
      = ([⟨"PROCESSING", "Validating email address", "1/5"⟩],
         Except.error "Invalid email address") := by
  simp [send_single_email, h]

/-- Claim C2, witness at the concrete recipient "invalid-email". -/
theorem claim_c2_witness :
    send_single_email "invalid-email" "Hi" "Test"
      = ([⟨"PROCESSING", "Validating email address", "1/5"⟩],
         Except.error "Invalid email address") :=
  claim_c2 "invalid-email" "Hi" "Test" (by decide)

/-! ### Claim C3 -/

/-- Claim C3, counterexample: the claim's reason string for validation
failures, "invalid email format", differs from the one the code stores,
"Invalid email format" (capital I): at input `["bad"]` the single failed
entry carries the capitalized reason. -/
theorem claim_c3_counterexample :
    (bulkResult ["bad"] "s" "m").failed_emails.map FailedEntry.reason
        = ["Invalid email format"]
    ∧ "Invalid email format" ≠ "invalid email format" := by
  refine ⟨by decide, by decide⟩

/-- Claim C3 (amended): every per-recipient failure of a bulk run is
appended to the failed list with a reason — "Invalid email format" (capital
I) for validation failures — and the loop continues to the next recipient
(every recipient still contributes exactly one entry, so the counts always
sum to the input length); the bulk task itself completes with status
"COMPLETED" and never ends failed because of individual recipient
failures. -/
theorem claim_c3_amended (email_list : List String) (subject message : String) :
    (bulkResult email_list subject message).status = "COMPLETED"
    ∧ (bulkResult email_list subject message).failed_emails
        = (email_list.filter (fun e => !bulk_email_valid e)).map
            (fun e => ({ email := e, reason := "Invalid email format" } : FailedEntry))
    ∧ (bulkResult email_list subject message).sent_emails.map SentEntry.email
        = email_list.filter (fun e => bulk_email_valid e)
    ∧ (bulkResult email_list subject message).summary.sent_count
        + (bulkResult email_list subject message).summary.failed_count
        = email_list.length := by
  obtain ⟨hs, hf, _⟩ := bulkResult_counts email_list subject message
  refine ⟨rfl, bulkResult_failed_emails email_list subject message, ?_, ?_⟩
  · rw [bulkResult_sent_emails email_list subject message]
    simp [Function.comp_def]
  · rw [hs, hf]; exact length_filter_add_not _ email_list

/-- Claim C3, witness at the input `["good@x.com", "bad", "also@ok.io"]`:
the invalid middle recipient lands in the failed list with the capitalized
reason, and both surrounding valid recipients are still processed. -/
theorem claim_c3_witness :
    (bulkResult ["good@x.com", "bad", "also@ok.io"] "Hi" "Test").status = "COMPLETED"
    ∧ (bulkResult ["good@x.com", "bad", "also@ok.io"] "Hi" "Test").failed_emails
        = [{ email := "bad", reason := "Invalid email format" }]
    ∧ (bulkResult ["good@x.com", "bad", "also@ok.io"] "Hi" "Test").sent_emails.map SentEntry.email
        = ["good@x.com", "also@ok.io"] := by
  have h := claim_c3_amended ["good@x.com", "bad", "also@ok.io"] "Hi" "Test"
  refine ⟨h.1, ?_, ?_⟩
  · rw [h.2.1]; decide
  · rw [h.2.2.1]; decide

/-! ### Claim C4 -/

/-- Claim C4: progress publications advance monotonically. A single-email
run publishes the step values 1/5 … 5/5 in that order (all five on the
valid path; each step is published before the step's work — in particular
an invalid recipient still gets the step-1 publication before validation
fails, and publishes nothing further). A bulk run publishes the current
values 0, 1, …, total in that order. In both cases every published value
is strictly greater than every earlier one — never lower. -/
theorem claim_c4 (recipient subject message : String)
    (email_list : List String) (bulk_subject bulk_message : String) :
    (singleSteps recipient subject message = [1, 2, 3, 4, 5]
      ∨ singleSteps recipient subject message = [1])
    ∧ (singleSteps recipient subject message).Pairwise (· < ·)
    ∧ (pyContains recipient '@' = false →
        singleSteps recipient subject message = [1])
    ∧ bulkCurrents email_list bulk_subject bulk_message
        = List.range (email_list.length + 1)
    ∧ (bulkCurrents email_list bulk_subject bulk_message).Pairwise (· < ·) := by
  have hbulk : bulkCurrents email_list bulk_subject bulk_message
      = List.range (email_list.length + 1) := by
    have h1 : bulkCurrents email_list bulk_subject bulk_message
        = 0 :: email_list.enum.map (fun p => p.1 + 1) := by
      simp [bulkCurrents, bulkPublishes, send_bulk_emails, update_progress,
        Function.comp_def]
    have h2 : email_list.enum.map (fun p => p.1 + 1)
        = (email_list.enum.map Prod.fst).map Nat.succ := by
      rw [List.map_map]; rfl
    rw [h1, h2, List.enum_map_fst, ← List.range_succ_eq_map]
  have hsingle : singleSteps recipient subject message = [1, 2, 3, 4, 5]
      ∨ singleSteps recipient subject message = [1] := by
    by_cases h : pyContains recipient '@' = false
    · right; simp [singleSteps, singlePublishes, send_single_email, h, stepToNat]
    · left
      simp [singleSteps, singlePublishes, send_single_email, h,
        simulate_email_sending_fixed, stepToNat]
  refine ⟨hsingle, ?_, ?_, hbulk, ?_⟩
  · rcases hsingle with h | h <;> rw [h] <;> decide
  · intro h
    simp [singleSteps, singlePublishes, send_single_email, h, stepToNat]
  · rw [hbulk]; exact List.pairwise_lt_range _

/-- Claim C4, witness at a valid single recipient and a two-recipient bulk
list. -/
theorem claim_c4_witness :
    singleSteps "a@b.com" "Hi" "Test" = [1, 2, 3, 4, 5]
    ∧ bulkCurrents ["x@y.io", "bad"] "Hi" "Test" = [0, 1, 2]
    ∧ singleSteps "invalid-email" "Hi" "Test" = [1] := by
  have h1 := claim_c4 "a@b.com" "Hi" "Test" ["x@y.io", "bad"] "Hi" "Test"
  have h2 := claim_c4 "invalid-email" "Hi" "Test" [] "Hi" "Test"
  refine ⟨?_, ?_, h2.2.2.1 (by decide)⟩
  · rcases h1.1 with h | h
    · exact h
    · exact absurd h (by decide)
  · rw [h1.2.2.2.1]; decide

/-! ### Claim C5 -/

/-- Claim C5: at bulk completion the reported success rate is
`sent_count / total * 100` rendered with one decimal digit, and the
division is guarded — a zero total yields the string "0.0%" rather than a
division fault. -/
theorem claim_c5 (email_list : List String) (subject message : String) :
    (0 < email_list.length →
      (bulkResult email_list subject message).summary.success_rate_q
        = ((bulkResult email_list subject message).summary.sent_count : ℚ)
            / ((bulkResult email_list subject message).summary.total_emails : ℚ) * 100)
    ∧ (bulkResult email_list subject message).summary.success_rate
        = formatRate1 (bulkResult email_list subject message).summary.success_rate_q
    ∧ (email_list.length = 0 →
        (bulkResult email_list subject message).summary.success_rate_q = 0
        ∧ (bulkResult email_list subject message).summary.success_rate = "0.0%") := by
  refine ⟨?_, rfl, ?_⟩
  · intro h
    simp [bulkResult, send_bulk_emails, h]
  · intro h
    have h0 : (bulkResult email_list subject message).summary.success_rate_q = 0 := by
      simp [bulkResult, send_bulk_emails, h]
    refine ⟨h0, ?_⟩
    have hfr : (bulkResult email_list subject message).summary.success_rate
        = formatRate1 (bulkResult email_list subject message).summary.success_rate_q := rfl
    have hr0 : roundHalfEven ((0 : ℚ) * 10) = 0 := by
      unfold roundHalfEven
      norm_num
    rw [hfr, h0]
    unfold formatRate1
    rw [hr0]
    decide

/-- Claim C5, witness at the inputs `["good@x.com", "bad"]` (one of two
sent: 50.0%) and `[]` (zero total: "0.0%"). -/
theorem claim_c5_witness :
    (bulkResult ["good@x.com", "bad"] "Hi" "Test").summary.success_rate_q
        = ((bulkResult ["good@x.com", "bad"] "Hi" "Test").summary.sent_count : ℚ)
            / ((bulkResult ["good@x.com", "bad"] "Hi" "Test").summary.total_emails : ℚ) * 100
    ∧ (bulkResult [] "Hi" "Test").summary.success_rate = "0.0%" := by
  have h1 := (claim_c5 ["good@x.com", "bad"] "Hi" "Test").1 (by decide)
  have h2 := ((claim_c5 [] "Hi" "Test").2.2 rfl).2
  exact ⟨h1, h2⟩

/-! ### Claim C6 -/

/-- Claim C6, counterexample: the claim says the published percent is
`round(current / total * 100)`, but the code truncates
(`int((current / total) * 100)`): at `current = 2, total = 3` — published
by any 3-recipient bulk run — the code publishes 66 while the claimed
rounding gives 67. -/
theorem claim_c6_counterexample :
    (update_progress 2 3 "Sending email 2/3 to b@x.io").progress = 66
    ∧ round (((2 : ℚ) / 3) * 100) = 67 := by
  constructor
  · decide
  · norm_num [round_eq]

/-- Claim C6 (amended): the published percent truncates rather than rounds:
for `total > 0` it equals `⌊current / total * 100⌋` (the floor of the exact
quotient; the source truncates the IEEE-double product, which agrees except
for representation error at isolated inputs), for `total = 0` it is 0, and
it lies in 0–100 whenever `current ≤ total`. -/
theorem claim_c6_amended (current total : Nat) (msg : String) :
    (total = 0 → (update_progress current total msg).progress = 0)
    ∧ (0 < total → (update_progress current total msg).progress
        = ⌊((current : ℚ) / (total : ℚ)) * 100⌋₊)
    ∧ (current ≤ total → (update_progress current total msg).progress ≤ 100) := by
  refine ⟨?_, ?_, ?_⟩
  · intro h; simp [update_progress, h]
  · intro h
    have hp : (update_progress current total msg).progress = current * 100 / total := by
      simp [update_progress, h]
    rw [hp, div_mul_eq_mul_div]
    rw [show ((current : ℚ) * 100) = ((current * 100 : ℕ) : ℚ) by push_cast; ring]
    exact (Nat.floor_div_eq_div (current * 100) total).symm
  · intro h
    rcases Nat.eq_zero_or_pos total with h0 | h0
    · simp [update_progress, h0]
    · have hp : (update_progress current total msg).progress = current * 100 / total := by
        simp [update_progress, h0]
      rw [hp]
      calc current * 100 / total ≤ total * 100 / total :=
            Nat.div_le_div_right (Nat.mul_le_mul_right _ h)
        _ = 100 := Nat.mul_div_cancel_left _ h0

/-- Claim C6, witness at `(2, 3)`: the published percent is the floor 66
and within 0–100. -/
theorem claim_c6_witness :
    (update_progress 2 3 "m").progress = ⌊((2 : ℚ) / 3) * 100⌋₊
    ∧ (update_progress 2 3 "m").progress ≤ 100 := by
  have h := claim_c6_amended 2 3 "m"
  exact ⟨h.2.1 (by decide), h.2.2 (by decide)⟩

/-! ### Claim C10 -/

/-- Claim C10: the transport stand-in returns `True` on every input, so the
"Unexpected email sending failure" branch of the single procedure and the
"Unexpected sending failure" branch of the bulk procedure are unreachable:
every single-email run whose recipient contains '@' completes with the
success result, and every failed-list entry of any bulk run carries the
reason "Invalid email format". -/
theorem claim_c10 (recipient subject message : String)
    (email_list : List String) (bulk_subject bulk_message : String) :
    simulate_email_sending_fixed recipient subject message = true
    ∧ (pyContains recipient '@' = true →
        singleOutcome recipient subject message
          = Except.ok ⟨"COMPLETED", recipient, subject,
              "Email sent successfully!", "confirmed"⟩)
    ∧ ∀ f ∈ (bulkResult email_list bulk_subject bulk_message).failed_emails,
        f.reason = "Invalid email format" := by
  refine ⟨rfl, ?_, ?_⟩
  · intro h
    simp [singleOutcome, send_single_email, h, simulate_email_sending_fixed]
  · intro f hf
    rw [bulkResult_failed_emails] at hf
    obtain ⟨e, _, rfl⟩ := List.mem_map.mp hf
    rfl

/-- Claim C10, witness at recipient "a@b.com" and bulk input `["bad"]`. -/
theorem claim_c10_witness :
    singleOutcome "a@b.com" "Hi" "Test"
      = Except.ok ⟨"COMPLETED", "a@b.com", "Hi",
          "Email sent successfully!", "confirmed"⟩
    ∧ ∀ f ∈ (bulkResult ["bad"] "Hi" "Test").failed_emails,
        f.reason = "Invalid email format" := by
  have h := claim_c10 "a@b.com" "Hi" "Test" ["bad"] "Hi" "Test"
  exact ⟨h.2.1 (by decide), h.2.2⟩

/-! ### Claim C7 -/

/-- Claim C7, counterexample: the claim quantifies over every submission,
but the bulk endpoint validates the payload before the queue check — an
empty bulk list submitted while the queue depth (30) is at the bulk
threshold (30) is answered with a 400 validation error, not with the
claimed 503 queue rejection. -/
theorem claim_c7_counterexample :
    30 ≥ defaultConfig.max_queue_length_bulk
    ∧ send_bulk_emails_endpoint defaultConfig 30 "tid" [] "s" "m"
        = SubmitResponse.badRequest 400 "Email list cannot be empty"
    ∧ (send_bulk_emails_endpoint defaultConfig 30 "tid" [] "s" "m").isQueueFull
        = false := by
  refine ⟨by decide, by decide, by decide⟩

/-- Claim C7 (amended): for every submission that passes payload
validation (any single submission; a bulk submission with a non-empty list
within the configured maximum), a queue depth at or above the kind's
threshold — single and bulk thresholds are independent configuration
values, 50 and 30 by default — yields a 503 rejection carrying the current
depth, with no task created or enqueued; a depth below the threshold yields
a task id with status "PENDING". -/
theorem claim_c7_amended (cfg : AppConfig) (queue_length : Nat)
    (task_id recipient subject message : String)
    (bulk_task_id : String) (email_list : List String)
    (bulk_subject bulk_message : String) :
    (queue_length ≥ cfg.max_queue_length_single →
      send_email_endpoint cfg queue_length task_id recipient subject message
        = SubmitResponse.queueFull 503
            "Email queue is full. Please try again later." queue_length
      ∧ (send_email_endpoint cfg queue_length task_id recipient subject
          message).createdTask = false)
    ∧ (queue_length < cfg.max_queue_length_single →
        send_email_endpoint cfg queue_length task_id recipient subject message
          = SubmitResponse.accepted task_id "PENDING" none)
    ∧ (0 < email_list.length → email_list.length ≤ cfg.max_bulk_emails →
        (queue_length ≥ cfg.max_queue_length_bulk →
          send_bulk_emails_endpoint cfg queue_length bulk_task_id email_list
              bulk_subject bulk_message
            = SubmitResponse.queueFull 503
                "Email queue is full. Please try again later." queue_length
          ∧ (send_bulk_emails_endpoint cfg queue_length bulk_task_id email_list
              bulk_subject bulk_message).createdTask = false)
        ∧ (queue_length < cfg.max_queue_length_bulk →
            send_bulk_emails_endpoint cfg queue_length bulk_task_id email_list
                bulk_subject bulk_message
              = SubmitResponse.accepted bulk_task_id "PENDING"
                  (some email_list.length)))
    ∧ defaultConfig.max_queue_length_single = 50
    ∧ defaultConfig.max_queue_length_bulk = 30 := by
  refine ⟨?_, ?_, ?_, rfl, rfl⟩
  · intro h
    constructor
    · simp [send_email_endpoint, h]
    · simp [send_email_endpoint, h, SubmitResponse.createdTask]
  · intro h
    simp [send_email_endpoint, Nat.not_le.mpr h]
  · intro hpos hmax
    have h0 : ¬ email_list.length = 0 := Nat.pos_iff_ne_zero.mp hpos
    have h1 : ¬ email_list.length > cfg.max_bulk_emails := Nat.not_lt.mpr hmax
    constructor
    · intro h
      constructor
      · simp [send_bulk_emails_endpoint, h0, h1, h]
      · simp [send_bulk_emails_endpoint, h0, h1, h, SubmitResponse.createdTask]
    · intro h
      simp [send_bulk_emails_endpoint, h0, h1, Nat.not_le.mpr h]

/-- Claim C7, witness at the default configuration: a single submission at
depth 50 is rejected with the depth and creates no task; one at depth 0 is
accepted "PENDING"; a one-recipient bulk submission at depth 30 is rejected
and at depth 0 accepted with its recipient count. -/
theorem claim_c7_witness :
    send_email_endpoint defaultConfig 50 "t1" "a@b.com" "Hi" "Test"
      = SubmitResponse.queueFull 503
          "Email queue is full. Please try again later." 50
    ∧ send_email_endpoint defaultConfig 0 "t1" "a@b.com" "Hi" "Test"
      = SubmitResponse.accepted "t1" "PENDING" none
    ∧ send_bulk_emails_endpoint defaultConfig 30 "t2" ["a@b.com"] "Hi" "Test"
      = SubmitResponse.queueFull 503
          "Email queue is full. Please try again later." 30
    ∧ send_bulk_emails_endpoint defaultConfig 0 "t2" ["a@b.com"] "Hi" "Test"
      = SubmitResponse.accepted "t2" "PENDING" (some 1) := by
  have h50 := claim_c7_amended defaultConfig 50 "t1" "a@b.com" "Hi" "Test"
    "t2" ["a@b.com"] "Hi" "Test"
  have h30 := claim_c7_amended defaultConfig 30 "t1" "a@b.com" "Hi" "Test"
    "t2" ["a@b.com"] "Hi" "Test"
  have h0 := claim_c7_amended defaultConfig 0 "t1" "a@b.com" "Hi" "Test"
    "t2" ["a@b.com"] "Hi" "Test"
  refine ⟨(h50.1 (by decide)).1, h0.2.1 (by decide), ?_, ?_⟩
  · exact ((h30.2.2.1 (by decide) (by decide)).1 (by decide)).1
  · exact (h0.2.2.1 (by decide) (by decide)).2 (by decide)

/-! ### Claim C8 -/

/-- Claim C8, counterexample: the claim says the progress block is exposed
whenever the stored state is in the transient Processing family, but the
projection attaches `meta` only for the literal state "PROGRESS": a record
in state "PROCESSING" (the single-email procedure's step-1/2 state) with a
stored progress meta is projected with no meta at all. -/
theorem claim_c8_counterexample :
    get_task_status "t1" ⟨"PROCESSING", some "Validating email address, step 1/5"⟩
      = ⟨"t1", "PROCESSING", none, none, none⟩ := by
  decide

/-- Claim C8 (amended): the status projection exposes the progress block
only for the stored state "PROGRESS" (the bulk procedure's counter state);
the single-email procedure's named transient states are exposed as their
raw label with no progress block. A "SUCCESS" record is normalized to the
single label "COMPLETED" with the result exposed; a "FAILURE" record to
"FAILED" with the error message exposed; result and error never both
appear, and neither appears unless the stored state is terminal. -/
theorem claim_c8_amended (task_id : String) (r : StoredRecord) :
    (r.status = "PROGRESS" →
      get_task_status task_id r
        = ⟨task_id, "PROGRESS", none, none, r.info⟩)
    ∧ (r.status = "SUCCESS" →
        get_task_status task_id r = ⟨task_id, "COMPLETED", r.info, none, none⟩)
    ∧ (r.status = "FAILURE" →
        get_task_status task_id r
          = ⟨task_id, "FAILED", none,
              some (match r.info with | some s => s | none => "Task failed"),
              none⟩)
    ∧ (r.status ≠ "PROGRESS" → r.status ≠ "SUCCESS" → r.status ≠ "FAILURE" →
        get_task_status task_id r = ⟨task_id, r.status, none, none, none⟩)
    ∧ ¬ ((get_task_status task_id r).result.isSome
          ∧ (get_task_status task_id r).error.isSome)
    ∧ (r.status ≠ "SUCCESS" → r.status ≠ "FAILURE" →
        (get_task_status task_id r).result = none
        ∧ (get_task_status task_id r).error = none) := by
  refine ⟨?_, ?_, ?_, ?_, ?_, ?_⟩
  · intro h
    simp [get_task_status, h, StoredRecord.successful, StoredRecord.hasFailed]
  · intro h
    simp [get_task_status, h, StoredRecord.successful, StoredRecord.hasFailed]
  · intro h
    simp [get_task_status, h, StoredRecord.successful, StoredRecord.hasFailed]
  · intro h1 h2 h3
    simp [get_task_status, h1, h2, h3, StoredRecord.successful,
      StoredRecord.hasFailed]
  · by_cases h1 : r.status = "PROGRESS"
    · simp [get_task_status, h1, StoredRecord.successful, StoredRecord.hasFailed]
    · by_cases h2 : r.status = "SUCCESS"
      · simp [get_task_status, h1, h2, StoredRecord.successful,
          StoredRecord.hasFailed]
      · by_cases h3 : r.status = "FAILURE"
        · simp [get_task_status, h1, h2, h3, StoredRecord.successful,
            StoredRecord.hasFailed]
        · simp [get_task_status, h1, h2, h3, StoredRecord.successful,
            StoredRecord.hasFailed]
  · intro h2 h3
    by_cases h1 : r.status = "PROGRESS"
    · simp [get_task_status, h1, StoredRecord.successful, StoredRecord.hasFailed]
    · simp [get_task_status, h1, h2, h3, StoredRecord.successful,
        StoredRecord.hasFailed]

/-- Claim C8, witness: a "SUCCESS" record is projected as "COMPLETED" with
its result, a "FAILURE" record as "FAILED" with its error, a "PROGRESS"
record with its meta. -/
theorem claim_c8_witness :
    get_task_status "t1" ⟨"SUCCESS", some "result-payload"⟩
      = ⟨"t1", "COMPLETED", some "result-payload", none, none⟩
    ∧ get_task_status "t2" ⟨"FAILURE", some "Invalid email address"⟩
      = ⟨"t2", "FAILED", none, some "Invalid email address", none⟩
    ∧ get_task_status "t3" ⟨"PROGRESS", some "progress-meta"⟩
      = ⟨"t3", "PROGRESS", none, none, some "progress-meta"⟩ := by
  refine ⟨?_, ?_, ?_⟩
  · exact (claim_c8_amended "t1" ⟨"SUCCESS", some "result-payload"⟩).2.1 rfl
  · exact (claim_c8_amended "t2" ⟨"FAILURE", some "Invalid email address"⟩).2.2.1 rfl
  · exact (claim_c8_amended "t3" ⟨"PROGRESS", some "progress-meta"⟩).1 rfl

/-! ### Claim C9 -/

/-- Claim C9, counterexample: looking up an identifier absent from the
result store (never existed or expired) is not a distinct not-found
outcome: celery's `AsyncResult` reports status "PENDING" for it, and the
projection returned for the unknown id "ghost" is exactly the
pending-looking projection a real not-yet-started task gets. -/
theorem claim_c9_counterexample :
    get_task_status "ghost" (asyncResult (fun _ => none) "ghost")
      = ⟨"ghost", "PENDING", none, none, none⟩
    ∧ get_task_status "ghost" (asyncResult (fun _ => none) "ghost")
      = get_task_status "ghost" ⟨"PENDING", none⟩ := by
  refine ⟨by decide, by decide⟩

/-- Claim C9 (amended): looking up a task identifier that never existed or
whose record has expired yields a normal 200-shaped projection with status
"PENDING" — indistinguishable from a submitted-but-not-started task — not a
distinct not-found outcome. -/
theorem claim_c9_amended (store : String → Option StoredRecord)
    (task_id : String) (h : store task_id = none) :
    get_task_status task_id (asyncResult store task_id)
      = ⟨task_id, "PENDING", none, none, none⟩
    ∧ get_task_status task_id (asyncResult store task_id)
      = get_task_status task_id ⟨"PENDING", none⟩ := by
  have hr : asyncResult store task_id = ⟨"PENDING", none⟩ := by
    simp [asyncResult, h]
  rw [hr]
  refine ⟨?_, rfl⟩
  simp [get_task_status, StoredRecord.successful, StoredRecord.hasFailed]

/-- Claim C9, witness at an empty store and the identifier
"never-existed". -/
theorem claim_c9_witness :
    get_task_status "never-existed" (asyncResult (fun _ => none) "never-existed")
      = ⟨"never-existed", "PENDING", none, none, none⟩ :=
  (claim_c9_amended (fun _ => none) "never-existed" rfl).1

end EmailService
